import Mathlib

/-!
Verification of the `ladder.camera` module: camera modes, camera settings,
and the frustum-to-projection-matrix derivation with reversed depth.

The Python module is embedded shallowly:
* `CameraMode` is the enum's tag; the per-variant numeric payload that Python
  stores mutably on the enum members (`PERSPECTIVE.fov_rad`,
  `ORTHOGRAPHIC.box_height`, `PHYSICAL.focal_length`) is modelled as an
  explicit global state `CameraModeState`, threaded through the mutators.
* Methods that can raise return `Except CameraError _`; `CameraError`
  collects the error outcomes named by the design (the code's
  `ValueError("Invalid camera mode")` plays the role of
  `invalidModeOperation`; the other two constructors exist so that claims
  about them are statable, the code never produces them).
* `projection_from_frustum` is generic over a field so that exact facts can
  be evaluated over `ℚ` and the `tan`-dependent pipeline runs over `ℝ`.
-/

set_option autoImplicit false

namespace Ladder

/-- Error taxonomy of the camera module design. The source code only ever
raises `ValueError("Invalid camera mode")`, embedded as
`invalidModeOperation`; `invalidParameter` and `notImplemented` are named by
the design documents and are included so that claims about them can be
stated. -/
inductive CameraError where
  | invalidModeOperation
  | invalidParameter
  | notImplemented
deriving DecidableEq, Repr

/-- The tag of the `CameraMode` Python enum: `PERSPECTIVE = 1`,
`ORTHOGRAPHIC = 2`, `PHYSICAL = 3`. -/
inductive CameraMode where
  | PERSPECTIVE
  | ORTHOGRAPHIC
  | PHYSICAL
deriving DecidableEq, Repr

/-- The numeric tag `_value_` as assigned in `CameraMode.__new__`. -/
def CameraMode.value : CameraMode → Nat
  | .PERSPECTIVE => 1
  | .ORTHOGRAPHIC => 2
  | .PHYSICAL => 3

/-- The mutable per-variant payload fields that Python stores on the enum
members themselves: `PERSPECTIVE.fov_rad`, `ORTHOGRAPHIC.box_height`,
`PHYSICAL.focal_length`. Because each member is a single shared object,
this data is global state, not per-camera state. -/
structure CameraModeState where
  fov_rad : ℝ
  box_height : ℝ
  focal_length : ℝ

/-- The payload values assigned by the enum member definitions:
`PERSPECTIVE = 1, 80.0 * (math.pi / 180.0)`, `ORTHOGRAPHIC = 2, 80.0`,
`PHYSICAL = 3, 80.0`. -/
noncomputable def CameraModeState.init : CameraModeState :=
  { fov_rad := 80 * (Real.pi / 180), box_height := 80, focal_length := 80 }

/-- Mutator `set_fov_rad`: `if self.value == 1: self.fov_rad = fov_rad else:
raise ValueError("Invalid camera mode")`. The state effect of the assignment
is the updated `CameraModeState`. -/
def CameraModeState.set_fov_rad (ms : CameraModeState) (m : CameraMode)
    (fov_rad : ℝ) : Except CameraError CameraModeState :=
  if m.value = 1 then .ok { ms with fov_rad := fov_rad }
  else .error .invalidModeOperation

/-- Mutator `set_box_height`: `if self.value == 2: self.box_height =
box_height else: raise ValueError("Invalid camera mode")`. -/
def CameraModeState.set_box_height (ms : CameraModeState) (m : CameraMode)
    (box_height : ℝ) : Except CameraError CameraModeState :=
  if m.value = 2 then .ok { ms with box_height := box_height }
  else .error .invalidModeOperation

/-- Mutator `set_focal_length`: `if self.value == 3: self.focal_length =
focal_length else: raise ValueError("Invalid camera mode")`. -/
def CameraModeState.set_focal_length (ms : CameraModeState) (m : CameraMode)
    (focal_length : ℝ) : Except CameraError CameraModeState :=
  if m.value = 3 then .ok { ms with focal_length := focal_length }
  else .error .invalidModeOperation

/-- Reading `m.fov_rad` on a mode member: the attribute exists only on the
`PERSPECTIVE` member (Python raises `AttributeError` otherwise, modelled as
`none`), and reads the shared global payload. -/
def CameraModeState.fovRadOf (ms : CameraModeState) : CameraMode → Option ℝ
  | .PERSPECTIVE => some ms.fov_rad
  | _ => none

/-- Configuration bundle `CameraSettings`, exactly the fields assigned in
`CameraSettings.__init__`. -/
structure CameraSettings where
  mode : CameraMode
  near_plane : ℝ
  far_plane : ℝ
  shutter_speed : ℝ
  aperture : ℝ
  iso : ℝ
  sensor_size : ℝ × ℝ
  focus_distance : ℝ
  aspect_ratio : ℝ

/-- Constructor `CameraSettings.__init__`: the body consists solely of the
nine field assignments; it contains no validation and no `raise` statement, hence it
always returns `.ok`. -/
def CameraSettings.init (mode : CameraMode) (near_plane far_plane
    shutter_speed aperture iso : ℝ) (sensor_size : ℝ × ℝ)
    (focus_distance aspect_ratio : ℝ) : Except CameraError CameraSettings :=
  .ok { mode := mode, near_plane := near_plane, far_plane := far_plane,
        shutter_speed := shutter_speed, aperture := aperture, iso := iso,
        sensor_size := sensor_size, focus_distance := focus_distance,
        aspect_ratio := aspect_ratio }

/-- The reversed-z frustum-to-matrix derivation `projection_from_frustum`,
translated line by line from the source (`ti.Matrix` of four rows). Generic
over a field so it can be evaluated exactly over `ℚ` and composed with the
real-valued camera pipeline over `ℝ`. -/
def projection_from_frustum {K : Type} [Field K]
    (left right bottom top near far : K) : Matrix (Fin 4) (Fin 4) K :=
  let depth_range := far - near
  let n2 := 2 * near
  let mxx := n2 / (right - left)
  let myy := n2 / (top - bottom)
  let mzx := (right + left) / (right - left)
  let mzy := (top + bottom) / (top - bottom)
  let mzz := -far / depth_range
  let mwz := near * mzz
  let mzw := (-1 : K)
  Matrix.of
    ![![mxx, 0, 0, 0],
      ![0, myy, 0, 0],
      ![mzx, mzy, -mzz - 1, mzw],
      ![0, 0, -mwz, 0]]

/-- A `Camera` owns its settings and two 4×4 matrix slots
(`ti.Matrix.field(4, 4, float, shape=())`, zero-initialized). -/
structure Camera where
  settings : CameraSettings
  projection_matrix : Matrix (Fin 4) (Fin 4) ℝ
  view_matrix : Matrix (Fin 4) (Fin 4) ℝ

/-- Constructor `Camera.__init__`: stores the settings; both matrix fields
start as zero-filled Taichi fields. -/
def Camera.init (settings : CameraSettings) : Camera :=
  { settings := settings, projection_matrix := 0, view_matrix := 0 }

/-- Kernel `Camera.compute_projection_matrix`: its only statement is the
`ti.static` branch on `self.settings.mode == CameraMode.PERSPECTIVE`; in
that branch `t = near_plane * tan(fov_rad / 2)`, `r = t * aspect_ratio`,
and `projection_from_frustum(-r, r, -t, t, near_plane, far_plane)` is
written into the projection-matrix slot. For every other mode the kernel
body is empty: it returns normally with the camera unchanged. The enum
member's `fov_rad` payload is read from the global `CameraModeState`. -/
noncomputable def Camera.compute_projection_matrix (ms : CameraModeState)
    (c : Camera) : Except CameraError Camera :=
  if c.settings.mode = CameraMode.PERSPECTIVE then
    let t := c.settings.near_plane * Real.tan (ms.fov_rad / 2)
    let r := t * c.settings.aspect_ratio
    let p := projection_from_frustum (-r) r (-t) t c.settings.near_plane
      c.settings.far_plane
    .ok { c with projection_matrix := p }
  else
    .ok c

/-- Reading back the `projection_matrix` slot after invoking the kernel:
the slot's contents when the call returns normally, the previous contents
when it signals an error (the caller would then not observe a new write). -/
noncomputable def projectionAfterCompute (ms : CameraModeState)
    (c : Camera) : Matrix (Fin 4) (Fin 4) ℝ :=
  match Camera.compute_projection_matrix ms c with
  | .ok c2 => c2.projection_matrix
  | .error _ => c.projection_matrix

/-- Global mode payload state for the end-to-end scenario: the Perspective
member's `fov_rad` set to π/2 (90°), the other payloads at their defaults. -/
noncomputable def scenarioModeState : CameraModeState :=
  { fov_rad := Real.pi / 2, box_height := 80, focal_length := 80 }

/-- Settings for the end-to-end scenario: Perspective mode, near 0.1,
far 1000, aspect ratio 16/9; remaining fields at the constructor defaults. -/
noncomputable def scenarioSettings : CameraSettings :=
  { mode := CameraMode.PERSPECTIVE, near_plane := 1 / 10, far_plane := 1000,
    shutter_speed := 10, aperture := 4, iso := 100, sensor_size := (36, 24),
    focus_distance := 4, aspect_ratio := 16 / 9 }

/-- Camera for the end-to-end scenario. -/
noncomputable def scenarioCamera : Camera := Camera.init scenarioSettings

/-- A Perspective camera with aspect ratio 1 (symmetric frustum case);
remaining fields at the constructor defaults. -/
noncomputable def squareCamera : Camera :=
  Camera.init
    { mode := CameraMode.PERSPECTIVE, near_plane := 1 / 10,
      far_plane := 10000, shutter_speed := 10, aperture := 4, iso := 100,
      sensor_size := (36, 24), focus_distance := 4, aspect_ratio := 1 }

/-- A camera in Orthographic mode; remaining fields at the constructor
defaults. -/
noncomputable def orthoCamera : Camera :=
  Camera.init
    { mode := CameraMode.ORTHOGRAPHIC, near_plane := 1 / 10,
      far_plane := 10000, shutter_speed := 10, aperture := 4, iso := 100,
      sensor_size := (36, 24), focus_distance := 4, aspect_ratio := 1 }

/-- A camera in Physical mode; remaining fields at the constructor
defaults. -/
noncomputable def physicalCamera : Camera :=
  Camera.init
    { mode := CameraMode.PHYSICAL, near_plane := 1 / 10,
      far_plane := 10000, shutter_speed := 10, aperture := 4, iso := 100,
      sensor_size := (36, 24), focus_distance := 4, aspect_ratio := 1 }

end Ladder

namespace Ladder

/-- C1: for all inputs, `projection_from_frustum` returns exactly the matrix
of the specified derivation: row 0 = `[2n/(r-l), 0, 0, 0]`, row 1 =
`[0, 2n/(t-b), 0, 0]`, row 2 = `[(r+l)/(r-l), (t+b)/(t-b), -mzz-1, -1]`
with `mzz = -far/(far-near)`, row 3 = `[0, 0, -(near*mzz), 0]`. -/
theorem C1_projection_from_frustum_layout
    (left right bottom top near far : ℝ) :
    projection_from_frustum left right bottom top near far =
      Matrix.of
        ![![2 * near / (right - left), 0, 0, 0],
          ![0, 2 * near / (top - bottom), 0, 0],
          ![(right + left) / (right - left), (top + bottom) / (top - bottom),
            -(-far / (far - near)) - 1, -1],
          ![0, 0, -(near * (-far / (far - near))), 0]] := by
  rfl

/-- C2: in Perspective mode, `compute_projection_matrix` computes
`t = near_plane * tan(fov_rad / 2)` and `r = t * aspect_ratio`, and stores
`projection_from_frustum(-r, r, -t, t, near_plane, far_plane)` in the
projection-matrix slot (settings and view matrix untouched); and when
`aspect_ratio = 1` the half-width equals the half-height (`r = t`). -/
theorem C2_perspective_projection (ms : CameraModeState) (c : Camera)
    (h : c.settings.mode = CameraMode.PERSPECTIVE) :
    Camera.compute_projection_matrix ms c =
      Except.ok (Camera.mk c.settings
        (projection_from_frustum
          (-(c.settings.near_plane * Real.tan (ms.fov_rad / 2) *
              c.settings.aspect_ratio))
          (c.settings.near_plane * Real.tan (ms.fov_rad / 2) *
            c.settings.aspect_ratio)
          (-(c.settings.near_plane * Real.tan (ms.fov_rad / 2)))
          (c.settings.near_plane * Real.tan (ms.fov_rad / 2))
          c.settings.near_plane c.settings.far_plane)
        c.view_matrix) ∧
    (c.settings.aspect_ratio = 1 →
      c.settings.near_plane * Real.tan (ms.fov_rad / 2) *
          c.settings.aspect_ratio =
        c.settings.near_plane * Real.tan (ms.fov_rad / 2)) := by
  constructor
  · simp [Camera.compute_projection_matrix, h]
  · intro h1
    rw [h1, mul_one]

/-- Witness for C2 at the symmetric-frustum camera (`aspect_ratio = 1`). -/
theorem C2_perspective_projection_witness :
    squareCamera.settings.mode = CameraMode.PERSPECTIVE ∧
    (Camera.compute_projection_matrix scenarioModeState squareCamera =
      Except.ok (Camera.mk squareCamera.settings
        (projection_from_frustum
          (-(squareCamera.settings.near_plane *
              Real.tan (scenarioModeState.fov_rad / 2) *
              squareCamera.settings.aspect_ratio))
          (squareCamera.settings.near_plane *
            Real.tan (scenarioModeState.fov_rad / 2) *
            squareCamera.settings.aspect_ratio)
          (-(squareCamera.settings.near_plane *
              Real.tan (scenarioModeState.fov_rad / 2)))
          (squareCamera.settings.near_plane *
            Real.tan (scenarioModeState.fov_rad / 2))
          squareCamera.settings.near_plane
          squareCamera.settings.far_plane)
        squareCamera.view_matrix) ∧
    (squareCamera.settings.aspect_ratio = 1 →
      squareCamera.settings.near_plane *
          Real.tan (scenarioModeState.fov_rad / 2) *
          squareCamera.settings.aspect_ratio =
        squareCamera.settings.near_plane *
          Real.tan (scenarioModeState.fov_rad / 2))) :=
  ⟨rfl, C2_perspective_projection scenarioModeState squareCamera rfl⟩

/-- C3 counterexample: constructing `CameraSettings` with
`near_plane = 5 ≥ far_plane = 1` (all other arguments in-domain) does not
fail with `InvalidParameter`: it succeeds, and the constructed settings
object with `near_plane ≥ far_plane` is observable. -/
theorem C3_init_counterexample :
    CameraSettings.init CameraMode.PERSPECTIVE 5 1 10 4 100 (36, 24) 4 1 =
      Except.ok
        (CameraSettings.mk CameraMode.PERSPECTIVE 5 1 10 4 100 (36, 24)
          4 1) := by
  rfl

/-- C3 amended: `CameraSettings` construction performs no validation at
all: for every argument tuple, in-domain or not, it succeeds and stores
exactly the given field values. -/
theorem C3_init_always_succeeds (mode : CameraMode)
    (near_plane far_plane shutter_speed aperture iso : ℝ)
    (sensor_size : ℝ × ℝ) (focus_distance aspect_ratio : ℝ) :
    CameraSettings.init mode near_plane far_plane shutter_speed aperture
        iso sensor_size focus_distance aspect_ratio =
      Except.ok
        (CameraSettings.mk mode near_plane far_plane shutter_speed
          aperture iso sensor_size focus_distance aspect_ratio) := by
  rfl

/-- C5: each mode-specific mutator succeeds exactly on its own variant,
setting that variant's payload to the given value and leaving the other
payloads unchanged, and fails with `InvalidModeOperation` on the other two
variants — it never silently succeeds on a wrong variant. -/
theorem C5_mode_guard (ms : CameraModeState) (m : CameraMode) (v : ℝ) :
    (CameraModeState.set_fov_rad ms m v =
      if m = CameraMode.PERSPECTIVE then
        Except.ok (CameraModeState.mk v ms.box_height ms.focal_length)
      else Except.error CameraError.invalidModeOperation) ∧
    (CameraModeState.set_box_height ms m v =
      if m = CameraMode.ORTHOGRAPHIC then
        Except.ok (CameraModeState.mk ms.fov_rad v ms.focal_length)
      else Except.error CameraError.invalidModeOperation) ∧
    (CameraModeState.set_focal_length ms m v =
      if m = CameraMode.PHYSICAL then
        Except.ok (CameraModeState.mk ms.fov_rad ms.box_height v)
      else Except.error CameraError.invalidModeOperation) := by
  cases m <;>
    simp [CameraModeState.set_fov_rad, CameraModeState.set_box_height,
      CameraModeState.set_focal_length, CameraMode.value]

/-- Entry `[0][0]` of the frustum matrix is `mxx = 2*near/(right-left)`. -/
theorem projection_from_frustum_apply_00 {K : Type} [Field K]
    (left right bottom top near far : K) :
    projection_from_frustum left right bottom top near far 0 0 =
      2 * near / (right - left) := rfl

/-- Entry `[1][1]` of the frustum matrix is `myy = 2*near/(top-bottom)`. -/
theorem projection_from_frustum_apply_11 {K : Type} [Field K]
    (left right bottom top near far : K) :
    projection_from_frustum left right bottom top near far 1 1 =
      2 * near / (top - bottom) := rfl

/-- Entry `[2][2]` of the frustum matrix is `-mzz - 1` with
`mzz = -far/(far-near)`. -/
theorem projection_from_frustum_apply_22 {K : Type} [Field K]
    (left right bottom top near far : K) :
    projection_from_frustum left right bottom top near far 2 2 =
      -(-far / (far - near)) - 1 := rfl

/-- In the end-to-end scenario the tangent of the half field of view is 1:
`tan((π/2)/2) = tan(π/4) = 1`. -/
theorem tan_scenario_half_fov : Real.tan (scenarioModeState.fov_rad / 2) = 1 := by
  rw [show scenarioModeState.fov_rad = Real.pi / 2 from rfl]
  rw [show Real.pi / 2 / 2 = Real.pi / 4 by ring, Real.tan_pi_div_four]

/-- C4 counterexample: on an Orthographic camera,
`compute_projection_matrix` silently succeeds with the camera — including
its zero-initialized projection-matrix slot — completely unchanged; it does
not raise or signal `NotImplemented`. -/
theorem C4_orthographic_counterexample :
    Camera.compute_projection_matrix CameraModeState.init orthoCamera =
      Except.ok orthoCamera := rfl

/-- C4 amended: for every camera whose mode is not Perspective (i.e.
Orthographic or Physical), `compute_projection_matrix` is a silent no-op:
it returns normally, signals no error, and leaves the camera — in
particular the stale/zero projection-matrix slot — unchanged. -/
theorem C4_non_perspective_silent_noop (ms : CameraModeState) (c : Camera)
    (h : c.settings.mode ≠ CameraMode.PERSPECTIVE) :
    Camera.compute_projection_matrix ms c = Except.ok c := by
  simp [Camera.compute_projection_matrix, h]

/-- Witness for C4 amended at the Physical-mode camera. -/
theorem C4_non_perspective_silent_noop_witness :
    physicalCamera.settings.mode ≠ CameraMode.PERSPECTIVE ∧
    Camera.compute_projection_matrix CameraModeState.init physicalCamera =
      Except.ok physicalCamera :=
  ⟨by decide, C4_non_perspective_silent_noop CameraModeState.init
    physicalCamera (by decide)⟩

/-- C6 counterexample: the input left = -1, right = 1, bottom = -1, top = 1,
near = 1, far = 3/2 satisfies all the claimed preconditions
(right > left, top > bottom, far > near > 0), yet entry `[2][2]` of the
resulting matrix equals 2, which is not strictly below 1. -/
theorem C6_entry22_counterexample :
    ((-1 : ℚ) < 1 ∧ (-1 : ℚ) < 1 ∧ (0 : ℚ) < 1 ∧ (1 : ℚ) < 3 / 2) ∧
    ¬ (projection_from_frustum (-1 : ℚ) 1 (-1) 1 1 (3 / 2) 2 2 < 1) := by
  refine ⟨by norm_num, ?_⟩
  rw [projection_from_frustum_apply_22]
  norm_num

/-- C6 amended: for every frustum input with right > left, top > bottom and
far > near > 0, entries `[0][0]`, `[1][1]` and `[2][2]` are strictly
positive; entry `[2][2]` (which equals near/(far-near)) is moreover
strictly below 1 exactly when additionally far > 2*near — not for all
valid inputs as claimed. -/
theorem C6_entry_bounds {K : Type} [LinearOrderedField K]
    (left right bottom top near far : K) (hrl : left < right)
    (htb : bottom < top) (h0 : 0 < near) (hnf : near < far) :
    0 < projection_from_frustum left right bottom top near far 0 0 ∧
    0 < projection_from_frustum left right bottom top near far 1 1 ∧
    0 < projection_from_frustum left right bottom top near far 2 2 ∧
    (2 * near < far →
      projection_from_frustum left right bottom top near far 2 2 < 1) := by
  have hfn : (0 : K) < far - near := by linarith
  have h22 : projection_from_frustum left right bottom top near far 2 2 =
      near / (far - near) := by
    rw [projection_from_frustum_apply_22]
    field_simp
  refine ⟨?_, ?_, ?_, ?_⟩
  · rw [projection_from_frustum_apply_00]
    exact div_pos (by linarith) (by linarith)
  · rw [projection_from_frustum_apply_11]
    exact div_pos (by linarith) (by linarith)
  · rw [h22]
    exact div_pos h0 hfn
  · intro h2
    rw [h22, div_lt_one hfn]
    linarith

/-- Witness for C6 amended over ℚ at left = -1, right = 1, bottom = -1,
top = 1, near = 1, far = 3. -/
theorem C6_entry_bounds_witness :
    ((-1 : ℚ) < 1 ∧ (-1 : ℚ) < 1 ∧ (0 : ℚ) < 1 ∧ (1 : ℚ) < 3) ∧
    (0 < projection_from_frustum (-1 : ℚ) 1 (-1) 1 1 3 0 0 ∧
    0 < projection_from_frustum (-1 : ℚ) 1 (-1) 1 1 3 1 1 ∧
    0 < projection_from_frustum (-1 : ℚ) 1 (-1) 1 1 3 2 2 ∧
    (2 * (1 : ℚ) < 3 →
      projection_from_frustum (-1 : ℚ) 1 (-1) 1 1 3 2 2 < 1)) :=
  ⟨by norm_num,
    C6_entry_bounds (-1) 1 (-1) 1 1 3 (by norm_num) (by norm_num)
      (by norm_num) (by norm_num)⟩

/-- C7 counterexample: in the end-to-end scenario (fov = π/2, near = 0.1,
far = 1000, aspect ratio = 16/9) the stored matrix's `[0][0]` entry is
9/16 = 0.5625, which differs from the claimed 1.125 by far more than the
tolerance 1e-4. -/
theorem C7_scenario_counterexample :
    ¬ (|projectionAfterCompute scenarioModeState scenarioCamera 0 0 -
        1.125| ≤ 1e-4) := by
  have he : projectionAfterCompute scenarioModeState scenarioCamera 0 0 =
      9 / 16 := by
    simp only [projectionAfterCompute, Camera.compute_projection_matrix,
      scenarioCamera, scenarioSettings, Camera.init, reduceIte]
    rw [projection_from_frustum_apply_00, tan_scenario_half_fov]
    norm_num
  rw [he, abs_of_nonpos (by norm_num : (9 : ℝ) / 16 - 1.125 ≤ 0)]
  norm_num

/-- C7 amended: in the end-to-end scenario the derived half-height is
t = 0.1 and the stored matrix has `[0][0]` = 9/16 = 0.5625 and
`[1][1]` = 1.0, each (trivially) within the tolerance 1e-4 of those
values — half the values the specification claims. -/
theorem C7_scenario_entries :
    scenarioCamera.settings.near_plane *
        Real.tan (scenarioModeState.fov_rad / 2) = 1 / 10 ∧
    projectionAfterCompute scenarioModeState scenarioCamera 0 0 = 9 / 16 ∧
    projectionAfterCompute scenarioModeState scenarioCamera 1 1 = 1 ∧
    |projectionAfterCompute scenarioModeState scenarioCamera 0 0 -
      0.5625| ≤ 1e-4 ∧
    |projectionAfterCompute scenarioModeState scenarioCamera 1 1 - 1| ≤
      1e-4 := by
  have he : projectionAfterCompute scenarioModeState scenarioCamera 0 0 =
      9 / 16 := by
    simp only [projectionAfterCompute, Camera.compute_projection_matrix,
      scenarioCamera, scenarioSettings, Camera.init, reduceIte]
    rw [projection_from_frustum_apply_00, tan_scenario_half_fov]
    norm_num
  have he1 : projectionAfterCompute scenarioModeState scenarioCamera 1 1 =
      1 := by
    simp only [projectionAfterCompute, Camera.compute_projection_matrix,
      scenarioCamera, scenarioSettings, Camera.init, reduceIte]
    rw [projection_from_frustum_apply_11, tan_scenario_half_fov]
    norm_num
  refine ⟨?_, he, he1, ?_, ?_⟩
  · rw [tan_scenario_half_fov]
    norm_num [scenarioCamera, scenarioSettings, Camera.init]
  · rw [he]
    norm_num
  · rw [he1]
    norm_num

/-- C8 counterexample: at left = -1, right = 1, bottom = -1, top = 1,
near = 0.1, far = 100 the `[0][0]` entry is 0.1, not the claimed 0.2. -/
theorem C8_sample_counterexample :
    ¬ (projection_from_frustum (-1 : ℚ) 1 (-1) 1 (1 / 10) 100 0 0 =
        2 / 10) := by
  rw [projection_from_frustum_apply_00]
  norm_num

/-- C8 amended: at left = -1, right = 1, bottom = -1, top = 1, near = 0.1,
far = 100 the matrix has mxx = myy = 0.1 (entries `[0][0]` and `[1][1]`),
and the derived mzz (recoverable from entry `[2][2]` as `-[2][2] - 1`)
equals -100/99.9 = -1000/999 ≈ -1.001. -/
theorem C8_sample_values :
    projection_from_frustum (-1 : ℚ) 1 (-1) 1 (1 / 10) 100 0 0 = 1 / 10 ∧
    projection_from_frustum (-1 : ℚ) 1 (-1) 1 (1 / 10) 100 1 1 = 1 / 10 ∧
    -(projection_from_frustum (-1 : ℚ) 1 (-1) 1 (1 / 10) 100 2 2) - 1 =
      -(1000 / 999) := by
  refine ⟨?_, ?_, ?_⟩
  · rw [projection_from_frustum_apply_00]
    norm_num
  · rw [projection_from_frustum_apply_11]
    norm_num
  · rw [projection_from_frustum_apply_22]
    norm_num

/-- C9: the kernel is deterministic and reads only the (unchanged)
settings and mode payload, so a second invocation on the camera produced
by the first writes exactly the same projection matrix: if
`compute_projection_matrix` maps `c` to `c2`, it maps `c2` to `c2`
itself. -/
theorem C9_compute_idempotent (ms : CameraModeState) (c c2 : Camera)
    (h : Camera.compute_projection_matrix ms c = Except.ok c2) :
    Camera.compute_projection_matrix ms c2 = Except.ok c2 := by
  by_cases hm : c.settings.mode = CameraMode.PERSPECTIVE
  · simp only [Camera.compute_projection_matrix, hm, if_true, reduceIte,
      Except.ok.injEq] at h
    subst h
    simp [Camera.compute_projection_matrix, hm]
  · simp only [Camera.compute_projection_matrix, hm, if_false, reduceIte,
      Except.ok.injEq] at h
    subst h
    simp [Camera.compute_projection_matrix, hm]

/-- Witness for C9 at a concrete camera and mode state. -/
theorem C9_compute_idempotent_witness :
    Camera.compute_projection_matrix (CameraModeState.mk 1 2 3)
        orthoCamera = Except.ok orthoCamera :=
  C9_compute_idempotent (CameraModeState.mk 1 2 3) orthoCamera orthoCamera
    rfl

/-- C10: the per-variant payload lives on the shared enum member, so a
successful `set_fov_rad` through one settings object's mode updates the
`fov_rad` observed through every other settings object and camera whose
mode is the Perspective variant, while the Orthographic and Physical
payloads stay unchanged. -/
theorem C10_shared_mode_payload (ms ms2 : CameraModeState) (v : ℝ)
    (s1 s2 : CameraSettings) (c : Camera)
    (h : CameraModeState.set_fov_rad ms s1.mode v = Except.ok ms2)
    (h2 : s2.mode = CameraMode.PERSPECTIVE)
    (hc : c.settings.mode = CameraMode.PERSPECTIVE) :
    CameraModeState.fovRadOf ms2 s2.mode = some v ∧
    CameraModeState.fovRadOf ms2 c.settings.mode = some v ∧
    ms2.box_height = ms.box_height ∧
    ms2.focal_length = ms.focal_length := by
  by_cases hv : (s1.mode).value = 1
  · simp only [CameraModeState.set_fov_rad, hv, if_true, reduceIte,
      Except.ok.injEq] at h
    subst h
    simp [CameraModeState.fovRadOf, h2, hc]
  · simp [CameraModeState.set_fov_rad, hv] at h

/-- Witness for C10: mutating through one Perspective settings object is
observed through a second settings object and through a camera. -/
theorem C10_shared_mode_payload_witness :
    CameraModeState.set_fov_rad (CameraModeState.mk 1 2 3)
        squareCamera.settings.mode 5 =
      Except.ok (CameraModeState.mk 5 2 3) ∧
    scenarioSettings.mode = CameraMode.PERSPECTIVE ∧
    squareCamera.settings.mode = CameraMode.PERSPECTIVE ∧
    (CameraModeState.fovRadOf (CameraModeState.mk 5 2 3)
        scenarioSettings.mode = some 5 ∧
    CameraModeState.fovRadOf (CameraModeState.mk 5 2 3)
        squareCamera.settings.mode = some 5 ∧
    (CameraModeState.mk 5 2 3).box_height =
      (CameraModeState.mk 1 2 3).box_height ∧
    (CameraModeState.mk 5 2 3).focal_length =
      (CameraModeState.mk 1 2 3).focal_length) :=
  ⟨rfl, rfl, rfl,
    C10_shared_mode_payload (CameraModeState.mk 1 2 3)
      (CameraModeState.mk 5 2 3) 5 squareCamera.settings scenarioSettings
      squareCamera rfl rfl rfl⟩

end Ladder
